import Mathlib

/-!
# Shallow embedding of the Animals CRUD API

This file embeds the request-handling layer of the `API-mongoose` repository
(`app.js` route handlers plus the Mongoose schema in `animalsData.js`) as
executable Lean definitions, and proves the behavioural properties of the
HTTP status / error-body contract.

Modelling conventions:
* JSON scalar values are modelled by `JsonValue`; JSON numbers are rationals
  (`Rat`), which is enough to distinguish integer from non-integer ages.
  String-to-number casting of numeric string literals is not modelled, as no
  property below depends on it.
* The document store is an association list from identifiers to animals.
  A MongoDB ObjectId is a 24-character hexadecimal string (the driver also
  accepts any 12-character string, treated as a raw 12-byte id).
* Each store call may also fail for infrastructure reasons (store
  unreachable); this is injected through the `dbFault : Option String`
  argument, `some msg` meaning the driver reports a connection error with
  message `msg` when the operation would reach the server.
* Every thrown driver error is a `MongooseError`; route handlers catch it
  exactly where the `try/catch` of `app.js` does.
-/

/-- A JSON scalar value as it can appear in a request-body field. -/
inductive JsonValue where
  | str (s : String)
  | num (q : Rat)
  | jnull
  deriving DecidableEq, Repr

/-- A parsed JSON request body for the Animal resource: each schema field is
either absent (`none`) or bound to a JSON value. -/
structure Payload where
  name : Option JsonValue
  species : Option JsonValue
  age : Option JsonValue
  deriving DecidableEq, Repr

/-- A persisted Animal document: the business fields of `animalsSchema`
(`name`/`species` of Mongoose type `String`, `age` of Mongoose type
`Number`). -/
structure Animal where
  name : String
  species : String
  age : Rat
  deriving DecidableEq, Repr

/-- Errors thrown by the Mongoose driver: schema-validation errors, cast
errors (bad ObjectId or bad `Number` value) and connection-level failures. -/
inductive MongooseError where
  | validationError (msg : String)
  | castError (msg : String)
  | connectionError (msg : String)
  deriving DecidableEq, Repr

/-- The `error.message` field read by the `catch` blocks of `app.js`. -/
def MongooseError.message : MongooseError → String
  | .validationError m => m
  | .castError m => m
  | .connectionError m => m

/-- `true` on an `Except.ok` result. -/
def isOkE {ε α : Type} : Except ε α → Bool
  | .ok _ => true
  | .error _ => false

/-! ## The schema of `animalsData.js`

`animalsSchema` declares `name : String required`, `species : String
required`, `age : Number required`.  Mongoose semantics embedded here:
a required `String` path rejects a missing value, `null` and the empty
string; a required `Number` path rejects a missing value and `null`, and
cast-fails on a non-numeric value; any JSON number (integer or not) is a
valid `Number`. -/

/-- Mongoose cast of a present JSON value to schema type `String`
(numbers stringify, `null` stays empty for the required check). -/
def castString : JsonValue → Option String
  | .str s => some s
  | .num q => some (toString q)
  | .jnull => none

/-- Validation of a present value against a required `String` path. -/
def requiredStringField (field : String) (v : JsonValue) : Except MongooseError String :=
  match castString v with
  | none => .error (.validationError ("Path " ++ field ++ " is required."))
  | some s =>
      if s = "" then .error (.validationError ("Path " ++ field ++ " is required."))
      else .ok s

/-- Validation of a present value against a required `Number` path. -/
def requiredNumberField (field : String) (v : JsonValue) : Except MongooseError Rat :=
  match v with
  | .jnull => .error (.validationError ("Path " ++ field ++ " is required."))
  | .num q => .ok q
  | .str s => .error (.castError ("Cast to Number failed for value " ++ s ++ " at path " ++ field))

/-- Validation of a possibly-missing value against a required `String` path
(document validation, as run by `create`). -/
def requiredString (field : String) : Option JsonValue → Except MongooseError String
  | none => .error (.validationError ("Path " ++ field ++ " is required."))
  | some v => requiredStringField field v

/-- Validation of a possibly-missing value against a required `Number` path
(document validation, as run by `create`). -/
def requiredNumber (field : String) : Option JsonValue → Except MongooseError Rat
  | none => .error (.validationError ("Path " ++ field ++ " is required."))
  | some v => requiredNumberField field v

/-- Full-document validation run by `animalModel.create`: all three schema
paths are validated, missing fields included. -/
def validateCreate (p : Payload) : Except MongooseError Animal :=
  match requiredString "name" p.name with
  | .error e => .error e
  | .ok n =>
    match requiredString "species" p.species with
    | .error e => .error e
    | .ok s =>
      match requiredNumber "age" p.age with
      | .error e => .error e
      | .ok a => .ok ⟨n, s, a⟩

/-- The effective update of a `findByIdAndUpdate` call: for each schema
field, `none` means the field is absent from the request body and is left
untouched, `some x` means the field is set to `x`. -/
structure AnimalPatch where
  name : Option String
  species : Option String
  age : Option Rat
  deriving DecidableEq, Repr

/-- Update validation of one `String` path: a field absent from the update
document is skipped, a present one is cast and validated. -/
def patchString (field : String) : Option JsonValue → Except MongooseError (Option String)
  | none => .ok none
  | some v =>
    match requiredStringField field v with
    | .error e => .error e
    | .ok s => .ok (some s)

/-- Update validation of one `Number` path: a field absent from the update
document is skipped, a present one is cast and validated. -/
def patchNumber (field : String) : Option JsonValue → Except MongooseError (Option Rat)
  | none => .ok none
  | some v =>
    match requiredNumberField field v with
    | .error e => .error e
    | .ok q => .ok (some q)

/-- Update validation (`runValidators : true`): only the paths present in
the update document are cast and validated; absent paths are skipped. -/
def validatePatch (p : Payload) : Except MongooseError AnimalPatch :=
  match patchString "name" p.name with
  | .error e => .error e
  | .ok n =>
    match patchString "species" p.species with
    | .error e => .error e
    | .ok s =>
      match patchNumber "age" p.age with
      | .error e => .error e
      | .ok a => .ok ⟨n, s, a⟩

/-- Application of a validated update to the stored document
(`$set` semantics: absent fields keep their previous value). -/
def applyPatch (patch : AnimalPatch) (old : Animal) : Animal :=
  ⟨patch.name.getD old.name, patch.species.getD old.species, patch.age.getD old.age⟩

/-! ## The document store -/

/-- A store identifier, as it appears in the request path. -/
abbrev ObjectId := String

/-- Is `c` a hexadecimal digit? -/
def isHexDigit (c : Char) : Bool :=
  c.isDigit || (('a' ≤ c && c ≤ 'f') || ('A' ≤ c && c ≤ 'F'))

/-- ObjectId syntax accepted by the driver: a 24-character hexadecimal
string, or any 12-character string (read as 12 raw bytes). -/
def isValidObjectId (s : String) : Bool :=
  (s.length = 24 && s.toList.all isHexDigit) || s.length = 12

/-- The store contents: identifier / document pairs. -/
abbrev Store := List (ObjectId × Animal)

/-- A stored record together with its identifier, as serialized in
responses. -/
structure StoreRecord where
  id : ObjectId
  animal : Animal
  deriving DecidableEq, Repr

/-- Server-side lookup of a document by identifier. -/
def storeLookup : Store → String → Option Animal
  | [], _ => none
  | p :: t, id => if p.1 == id then some p.2 else storeLookup t id

/-- Server-side in-place replacement of the document stored at `id`. -/
def storeSet : Store → String → Animal → Store
  | [], _, _ => []
  | p :: t, id, a => (if p.1 == id then (p.1, a) else p) :: storeSet t id a

/-- Server-side removal of the document stored at `id`. -/
def storeRemove : Store → String → Store
  | [], _ => []
  | p :: t, id => if p.1 == id then storeRemove t id else p :: storeRemove t id

namespace animalModel

/-- `animalModel.create(body)`: validates the whole document against the
schema, then (if the store is reachable) persists it under a fresh
store-assigned identifier and returns the created record. -/
def create (st : Store) (dbFault : Option String) (fresh : ObjectId) (p : Payload) :
    Except MongooseError (Store × StoreRecord) :=
  match validateCreate p with
  | .error e => .error e
  | .ok a =>
    match dbFault with
    | some msg => .error (.connectionError msg)
    | none => .ok (st ++ [(fresh, a)], ⟨fresh, a⟩)

/-- `animalModel.find()`: returns every persisted record. -/
def find (st : Store) (dbFault : Option String) :
    Except MongooseError (List StoreRecord) :=
  match dbFault with
  | some msg => .error (.connectionError msg)
  | none => .ok (st.map (fun p => ⟨p.1, p.2⟩))

/-- `animalModel.findById(id)`: casting the path id to an ObjectId happens
before the query reaches the server; a syntactically invalid id throws a
cast error, a valid absent id resolves to `none`. -/
def findById (st : Store) (dbFault : Option String) (id : String) :
    Except MongooseError (Option StoreRecord) :=
  if isValidObjectId id then
    match dbFault with
    | some msg => .error (.connectionError msg)
    | none =>
      match storeLookup st id with
      | none => .ok none
      | some a => .ok (some ⟨id, a⟩)
  else .error (.castError ("Cast to ObjectId failed for value " ++ id))

/-- `animalModel.findByIdAndUpdate(id, body, {new: true, runValidators:
true})`: the id cast and the update validators run client-side, before the
query executes; the update itself is a `$set` of the body's fields, and with
`new : true` the post-update document is returned (`none` when no document
matches). -/
def findByIdAndUpdate (st : Store) (dbFault : Option String) (id : String) (p : Payload) :
    Except MongooseError (Store × Option StoreRecord) :=
  if isValidObjectId id then
    match validatePatch p with
    | .error e => .error e
    | .ok patch =>
      match dbFault with
      | some msg => .error (.connectionError msg)
      | none =>
        match storeLookup st id with
        | none => .ok (st, none)
        | some old => .ok (storeSet st id (applyPatch patch old), some ⟨id, applyPatch patch old⟩)
  else .error (.castError ("Cast to ObjectId failed for value " ++ id))

/-- `animalModel.findByIdAndDelete(id)`: id cast first, then removal;
resolves to the deleted record, or `none` when no document matches. -/
def findByIdAndDelete (st : Store) (dbFault : Option String) (id : String) :
    Except MongooseError (Store × Option StoreRecord) :=
  if isValidObjectId id then
    match dbFault with
    | some msg => .error (.connectionError msg)
    | none =>
      match storeLookup st id with
      | none => .ok (st, none)
      | some a => .ok (storeRemove st id, some ⟨id, a⟩)
  else .error (.castError ("Cast to ObjectId failed for value " ++ id))

end animalModel

/-! ## HTTP responses and the five route handlers of `app.js` -/

/-- A JSON response body: a single record, a record array, an
`{error: message}` object, or the empty body of `res.send()`. -/
inductive Body where
  | recordBody (r : StoreRecord)
  | listBody (rs : List StoreRecord)
  | errorBody (msg : String)
  | emptyBody
  deriving DecidableEq, Repr

/-- An HTTP response: status code plus body. -/
structure Response where
  status : Nat
  body : Body
  deriving DecidableEq, Repr

/-- `POST /animals` (app.js lines 113-120): create, 201 with the created
record; any thrown error is caught and mapped to 400 with the error's own
message.  Returns the response together with the post-request store. -/
def postAnimals (st : Store) (dbFault : Option String) (fresh : ObjectId) (body : Payload) :
    Response × Store :=
  match animalModel.create st dbFault fresh body with
  | .error e => (⟨400, .errorBody e.message⟩, st)
  | .ok (st2, rec) => (⟨201, .recordBody rec⟩, st2)

/-- `GET /animals` (app.js lines 134-141): 200 with the full record array;
any thrown error is caught and mapped to 500 with the error's message. -/
def getAnimals (st : Store) (dbFault : Option String) : Response :=
  match animalModel.find st dbFault with
  | .error e => ⟨500, .errorBody e.message⟩
  | .ok rs => ⟨200, .listBody rs⟩

/-- `GET /animals/:id` (app.js lines 164-176): 404 on a null result, 200
with the record otherwise; any thrown error is caught and mapped to 400
with the fixed body `{error: "Invalid ID format"}`. -/
def getAnimalsId (st : Store) (dbFault : Option String) (id : String) : Response :=
  match animalModel.findById st dbFault id with
  | .error _ => ⟨400, .errorBody "Invalid ID format"⟩
  | .ok none => ⟨404, .errorBody "Animal not found"⟩
  | .ok (some r) => ⟨200, .recordBody r⟩

/-- `PUT /animals/:id` (app.js lines 205-221): 404 on a null result, 200
with the post-update record otherwise; any thrown error is caught and
mapped to 400 with the error's own message. -/
def putAnimalsId (st : Store) (dbFault : Option String) (id : String) (body : Payload) :
    Response × Store :=
  match animalModel.findByIdAndUpdate st dbFault id body with
  | .error e => (⟨400, .errorBody e.message⟩, st)
  | .ok (st2, none) => (⟨404, .errorBody "Animal not found"⟩, st2)
  | .ok (st2, some r) => (⟨200, .recordBody r⟩, st2)

/-- `DELETE /animals/:id` (app.js lines 244-256): 404 on a null result, 204
with an empty body otherwise; any thrown error is caught and mapped to 400
with the fixed body `{error: "Invalid ID format"}`. -/
def deleteAnimalsId (st : Store) (dbFault : Option String) (id : String) :
    Response × Store :=
  match animalModel.findByIdAndDelete st dbFault id with
  | .error _ => (⟨400, .errorBody "Invalid ID format"⟩, st)
  | .ok (st2, none) => (⟨404, .errorBody "Animal not found"⟩, st2)
  | .ok (st2, some _) => (⟨204, .emptyBody⟩, st2)

/-- The response discipline of the handler boundary: a success body
(`recordBody`/`listBody`) rides a success status, the empty body appears
only with status 204, and an `errorBody` rides one of the error statuses
produced by the handlers; in particular every non-2xx response carries a
JSON `{error: message}` body. -/
def errorsAreHandled (r : Response) : Bool :=
  match r.body with
  | .errorBody _ => r.status == 400 || r.status == 404 || r.status == 500
  | .emptyBody => r.status == 204
  | .recordBody _ => r.status == 200 || r.status == 201
  | .listBody _ => r.status == 200

/-! ## Boot sequence (app.js lines 78-91)

`conectDB()` is an async function invoked WITHOUT `await`; execution of the
top level continues straight to `app.listen(PORT, ...)` while the
connection promise is still pending.  Only afterwards does the promise
settle: on success a log line, on failure `process.exit(1)`. -/

/-- Observable boot events. -/
inductive BootEvent where
  | connectStart
  | portOpened
  | connected
  | connectFailedLog
  | processExit (code : Nat)
  deriving DecidableEq, Repr

/-- The boot event trace of `app.js`, as a function of whether
`mongoose.connect` succeeds: `conectDB()` starts the connection attempt,
`app.listen` opens the port immediately, and the connection outcome is
observed only after that. -/
def bootTrace (connectSucceeds : Bool) : List BootEvent :=
  [.connectStart, .portOpened] ++
    (if connectSucceeds then [.connected] else [.connectFailedLog, .processExit 1])

/-! ## Concrete fixtures used in closed-form instances -/

/-- A syntactically valid ObjectId (24 hexadecimal characters). -/
def oid : ObjectId := "aaaaaaaaaaaaaaaaaaaaaaaa"

/-- A second syntactically valid ObjectId, distinct from `oid`. -/
def oid2 : ObjectId := "bbbbbbbbbbbbbbbbbbbbbbbb"

/-- The sample animal of the repository documentation. -/
def lion : Animal := ⟨"Lion", "Mammal", 5⟩

/-- A one-record store holding `lion` under `oid`. -/
def st0 : Store := [(oid, lion)]

/-- The empty JSON request body. -/
def emptyPayload : Payload := ⟨none, none, none⟩

/-! ## Store lemmas -/

theorem storeLookup_append_self (st : Store) (id : ObjectId) (a : Animal)
    (h : storeLookup st id = none) :
    storeLookup (st ++ [(id, a)]) id = some a := by
  induction st with
  | nil => simp [storeLookup]
  | cons p t ih =>
    by_cases hp : p.1 == id
    · simp [storeLookup, hp] at h
    · simp only [List.cons_append, storeLookup, if_neg hp] at h ⊢
      exact ih h

theorem storeLookup_remove (st : Store) (id : ObjectId) :
    storeLookup (storeRemove st id) id = none := by
  induction st with
  | nil => rfl
  | cons p t ih =>
    by_cases hp : p.1 == id
    · simpa [storeRemove, hp] using ih
    · simpa [storeRemove, storeLookup, hp] using ih

/-! ## Validation lemmas shared across properties -/

theorem validatePatch_parts {p : Payload} {patch : AnimalPatch}
    (hp : validatePatch p = .ok patch) :
    patchString "name" p.name = .ok patch.name ∧
    patchString "species" p.species = .ok patch.species ∧
    patchNumber "age" p.age = .ok patch.age := by
  unfold validatePatch at hp
  split at hp
  · exact absurd hp (by simp)
  · split at hp
    · exact absurd hp (by simp)
    · split at hp
      · exact absurd hp (by simp)
      · injection hp with h
        subst h
        refine ⟨?_, ?_, ?_⟩ <;> assumption

theorem validatePatch_name_none {p : Payload} {patch : AnimalPatch}
    (hp : validatePatch p = .ok patch) (hn : p.name = none) : patch.name = none := by
  have h := (validatePatch_parts hp).1
  rw [hn] at h
  simp only [patchString] at h
  injection h with h2
  exact h2.symm

theorem validatePatch_species_none {p : Payload} {patch : AnimalPatch}
    (hp : validatePatch p = .ok patch) (hn : p.species = none) : patch.species = none := by
  have h := (validatePatch_parts hp).2.1
  rw [hn] at h
  simp only [patchString] at h
  injection h with h2
  exact h2.symm

theorem validatePatch_age_none {p : Payload} {patch : AnimalPatch}
    (hp : validatePatch p = .ok patch) (hn : p.age = none) : patch.age = none := by
  have h := (validatePatch_parts hp).2.2
  rw [hn] at h
  simp only [patchNumber] at h
  injection h with h2
  exact h2.symm

/-! ## The claims -/

/-- C1 (counterexample): the Update operation is NOT a full-document
replace-and-validate.  With the record `lion` stored under `oid`, a PUT
with the empty body — a body that Create-validation rejects, since all of
`name`, `species`, `age` are missing — is answered 200 and leaves the
record unchanged: `findByIdAndUpdate` applies a partial patch and
validates only the paths present in the body. -/
theorem put_accepts_create_invalid_body :
    isOkE (validateCreate emptyPayload) = false ∧
    putAnimalsId st0 none oid emptyPayload = (⟨200, .recordBody ⟨oid, lion⟩⟩, st0) := by
  constructor <;> decide

/-- C1 (amended): for every existing record and every request body whose
present fields validate, Update applies a partial patch: the fields present
in the body are validated and written, omitted fields keep their previous
values, and the 200 response body is the post-update state of the record
(which is also the new store contents at that id). -/
theorem put_is_partial_patch (st : Store) (id : ObjectId) (old : Animal)
    (p : Payload) (patch : AnimalPatch) (hv : isValidObjectId id = true)
    (hl : storeLookup st id = some old) (hp : validatePatch p = .ok patch) :
    putAnimalsId st none id p =
      (⟨200, .recordBody ⟨id, applyPatch patch old⟩⟩,
       storeSet st id (applyPatch patch old)) := by
  simp [putAnimalsId, animalModel.findByIdAndUpdate, hv, hp, hl]

/-- Witness for the amended C1: updating `lion` with a body carrying only
a new name succeeds and yields the patched record. -/
theorem put_is_partial_patch_witness :
    isValidObjectId oid = true ∧ storeLookup st0 oid = some lion ∧
    validatePatch ⟨some (.str "Tiger"), none, none⟩ = .ok ⟨some "Tiger", none, none⟩ ∧
    putAnimalsId st0 none oid ⟨some (.str "Tiger"), none, none⟩ =
      (⟨200, .recordBody ⟨oid, applyPatch ⟨some "Tiger", none, none⟩ lion⟩⟩,
       storeSet st0 oid (applyPatch ⟨some "Tiger", none, none⟩ lion)) :=
  ⟨by decide, by decide, rfl,
   put_is_partial_patch st0 oid lion ⟨some (.str "Tiger"), none, none⟩
     ⟨some "Tiger", none, none⟩ (by decide) (by decide) rfl⟩

/-- C2: for get-by-id, update and delete, the 400-vs-404 distinction is
decided by identifier syntax first, then by the store lookup: a
syntactically invalid id draws 400 whatever the store holds, and a
syntactically valid id bound to no record draws 404 (for update, provided
the body's present fields validate, since update validators also run
before the lookup). -/
theorem id_syntax_then_lookup (st : Store) (id : String) (b : Payload)
    (hb : isOkE (validatePatch b) = true) (habsent : storeLookup st id = none) :
    (getAnimalsId st none id).status = (if isValidObjectId id then 404 else 400) ∧
    (putAnimalsId st none id b).1.status = (if isValidObjectId id then 404 else 400) ∧
    (deleteAnimalsId st none id).1.status = (if isValidObjectId id then 404 else 400) ∧
    (isValidObjectId id = false → ∀ st2 : Store,
      (getAnimalsId st2 none id).status = 400 ∧
      (putAnimalsId st2 none id b).1.status = 400 ∧
      (deleteAnimalsId st2 none id).1.status = 400) := by
  rcases hpv : validatePatch b with e | patch
  · rw [hpv] at hb
    simp [isOkE] at hb
  · by_cases hid : isValidObjectId id = true
    · refine ⟨?_, ?_, ?_, ?_⟩
      · simp [getAnimalsId, animalModel.findById, hid, habsent]
      · simp [putAnimalsId, animalModel.findByIdAndUpdate, hid, hpv, habsent]
      · simp [deleteAnimalsId, animalModel.findByIdAndDelete, hid, habsent]
      · intro hinv
        rw [hid] at hinv
        simp at hinv
    · simp only [Bool.not_eq_true] at hid
      refine ⟨?_, ?_, ?_, ?_⟩
      · simp [getAnimalsId, animalModel.findById, hid]
      · simp [putAnimalsId, animalModel.findByIdAndUpdate, hid]
      · simp [deleteAnimalsId, animalModel.findByIdAndDelete, hid]
      · intro _ st2
        exact ⟨by simp [getAnimalsId, animalModel.findById, hid],
               by simp [putAnimalsId, animalModel.findByIdAndUpdate, hid],
               by simp [deleteAnimalsId, animalModel.findByIdAndDelete, hid]⟩

/-- Witness for C2: the identifier `"not-an-id"` is malformed and unbound
in the empty store. -/
theorem id_syntax_then_lookup_witness :
    isOkE (validatePatch emptyPayload) = true ∧
    storeLookup ([] : Store) "not-an-id" = none ∧
    ((getAnimalsId [] none "not-an-id").status = (if isValidObjectId "not-an-id" then 404 else 400) ∧
     (putAnimalsId [] none "not-an-id" emptyPayload).1.status = (if isValidObjectId "not-an-id" then 404 else 400) ∧
     (deleteAnimalsId [] none "not-an-id").1.status = (if isValidObjectId "not-an-id" then 404 else 400) ∧
     (isValidObjectId "not-an-id" = false → ∀ st2 : Store,
       (getAnimalsId st2 none "not-an-id").status = 400 ∧
       (putAnimalsId st2 none "not-an-id" emptyPayload).1.status = 400 ∧
       (deleteAnimalsId st2 none "not-an-id").1.status = 400)) :=
  ⟨by decide, by decide,
   id_syntax_then_lookup [] "not-an-id" emptyPayload (by decide) (by decide)⟩

/-- C3 (code bug): the schema declares `age` with Mongoose type `Number`,
so a non-integer age such as 5/2 passes validation and is persisted with a
201 — although the API documentation embedded in `app.js` declares `age` as
an `integer` and the claim demands a 400.  (A rational is an integer
exactly when its denominator is 1; here the denominator is 2.)  The
missing-field half of the claim does hold: a payload without `name` is
rejected with 400, its error message in the body, and nothing persisted. -/
theorem create_accepts_noninteger_age :
    (mkRat 5 2).den = 2 ∧
    postAnimals [] none oid
        ⟨some (.str "Lion"), some (.str "Mammal"), some (.num (mkRat 5 2))⟩ =
      (⟨201, .recordBody ⟨oid, ⟨"Lion", "Mammal", mkRat 5 2⟩⟩⟩,
       [(oid, ⟨"Lion", "Mammal", mkRat 5 2⟩)]) ∧
    postAnimals [] none oid ⟨none, some (.str "Mammal"), some (.num 5)⟩ =
      (⟨400, .errorBody "Path name is required."⟩, []) := by
  refine ⟨by decide, by decide, by decide⟩

/-- C4 (counterexample): in the boot trace of a failed connection attempt
the port is opened even though the connection is never established —
`conectDB()` is not awaited, so `app.listen` runs before the connection
outcome; the process does exit with code 1 afterwards. -/
theorem port_opened_despite_connect_failure :
    BootEvent.portOpened ∈ bootTrace false ∧
    BootEvent.connected ∉ bootTrace false ∧
    (bootTrace false).getLast? = some (.processExit 1) := by
  decide

/-- C4 (amended): if establishing the connection fails at boot the process
exits with code 1 (non-zero), but the HTTP port is opened unconditionally
right after the connection attempt starts, before its outcome is known —
the server begins listening whether or not the connection succeeds. -/
theorem boot_exit_nonzero_port_already_open :
    (bootTrace false).take 2 = [.connectStart, .portOpened] ∧
    (bootTrace false).getLast? = some (.processExit 1) ∧
    (bootTrace true).take 2 = [.connectStart, .portOpened] ∧
    (bootTrace true).getLast? = some .connected := by
  decide

/-- C5: for every valid payload (non-empty `name` and `species`, integer
`age`) and fresh valid identifier, Create answers 201 with exactly the
payload's fields under that identifier, appends that record to the store,
and a subsequent Get-by-id on the new store returns 200 with the same
record (round-trip). -/
theorem create_get_roundtrip (st : Store) (fresh : ObjectId) (nm sp : String) (age : Int)
    (hn : nm ≠ "") (hs : sp ≠ "") (hfresh : isValidObjectId fresh = true)
    (hnew : storeLookup st fresh = none) :
    postAnimals st none fresh ⟨some (.str nm), some (.str sp), some (.num (age : Rat))⟩ =
      (⟨201, .recordBody ⟨fresh, ⟨nm, sp, (age : Rat)⟩⟩⟩,
       st ++ [(fresh, ⟨nm, sp, (age : Rat)⟩)]) ∧
    getAnimalsId (st ++ [(fresh, ⟨nm, sp, (age : Rat)⟩)]) none fresh =
      ⟨200, .recordBody ⟨fresh, ⟨nm, sp, (age : Rat)⟩⟩⟩ := by
  constructor
  · simp [postAnimals, animalModel.create, validateCreate, requiredString,
      requiredStringField, requiredNumber, requiredNumberField, castString, hn, hs]
  · simp [getAnimalsId, animalModel.findById, hfresh,
      storeLookup_append_self st fresh _ hnew]

/-- Witness for C5: creating the documentation example
`{name: "Lion", species: "Mammal", age: 5}` in the empty store. -/
theorem create_get_roundtrip_witness :
    ("Lion" ≠ "") ∧ ("Mammal" ≠ "") ∧ isValidObjectId oid = true ∧
    storeLookup ([] : Store) oid = none ∧
    (postAnimals [] none oid
        ⟨some (.str "Lion"), some (.str "Mammal"), some (.num ((5 : Int) : Rat))⟩ =
      (⟨201, .recordBody ⟨oid, ⟨"Lion", "Mammal", ((5 : Int) : Rat)⟩⟩⟩,
       [] ++ [(oid, ⟨"Lion", "Mammal", ((5 : Int) : Rat)⟩)]) ∧
     getAnimalsId ([] ++ [(oid, ⟨"Lion", "Mammal", ((5 : Int) : Rat)⟩)]) none oid =
      ⟨200, .recordBody ⟨oid, ⟨"Lion", "Mammal", ((5 : Int) : Rat)⟩⟩⟩) :=
  ⟨by decide, by decide, by decide, by decide,
   create_get_roundtrip [] oid "Lion" "Mammal" 5 (by decide) (by decide)
     (by decide) (by decide)⟩

/-- C6: deleting a bound, well-formed identifier answers 204 with the empty
body and removes the record from the store; an immediately repeated delete
of the same identifier finds nothing and answers 404. -/
theorem delete_then_delete (st : Store) (id : ObjectId) (a : Animal)
    (hv : isValidObjectId id = true) (hl : storeLookup st id = some a) :
    (deleteAnimalsId st none id).1 = ⟨204, .emptyBody⟩ ∧
    storeLookup (deleteAnimalsId st none id).2 id = none ∧
    (deleteAnimalsId (deleteAnimalsId st none id).2 none id).1 =
      ⟨404, .errorBody "Animal not found"⟩ := by
  have h1 : deleteAnimalsId st none id = (⟨204, .emptyBody⟩, storeRemove st id) := by
    simp [deleteAnimalsId, animalModel.findByIdAndDelete, hv, hl]
  rw [h1]
  refine ⟨rfl, storeLookup_remove st id, ?_⟩
  simp [deleteAnimalsId, animalModel.findByIdAndDelete, hv, storeLookup_remove]

/-- Witness for C6: deleting `lion` from the one-record store, twice. -/
theorem delete_then_delete_witness :
    isValidObjectId oid = true ∧ storeLookup st0 oid = some lion ∧
    ((deleteAnimalsId st0 none oid).1 = ⟨204, .emptyBody⟩ ∧
     storeLookup (deleteAnimalsId st0 none oid).2 oid = none ∧
     (deleteAnimalsId (deleteAnimalsId st0 none oid).2 none oid).1 =
       ⟨404, .errorBody "Animal not found"⟩) :=
  ⟨by decide, by decide, delete_then_delete st0 oid lion (by decide) (by decide)⟩

/-- C7: List answers 200 with the array of all records (the empty array on
the empty store) and maps a store failure to 500 with the failure's
message; the other four operations fold the same store failure into a 400
— List is the only operation surfacing a store failure as 500. -/
theorem list_alone_surfaces_500 (st : Store) (msg : String) (id : String)
    (b : Payload) (fresh : ObjectId) :
    getAnimals st none = ⟨200, .listBody (st.map (fun p => ⟨p.1, p.2⟩))⟩ ∧
    getAnimals [] none = ⟨200, .listBody []⟩ ∧
    getAnimals st (some msg) = ⟨500, .errorBody msg⟩ ∧
    (getAnimalsId st (some msg) id).status = 400 ∧
    (putAnimalsId st (some msg) id b).1.status = 400 ∧
    (deleteAnimalsId st (some msg) id).1.status = 400 ∧
    (postAnimals st (some msg) fresh b).1.status = 400 := by
  refine ⟨rfl, rfl, rfl, ?_, ?_, ?_, ?_⟩
  · cases h : isValidObjectId id <;> simp [getAnimalsId, animalModel.findById, h]
  · cases h : isValidObjectId id <;>
      rcases hpv : validatePatch b with e | patch <;>
      simp [putAnimalsId, animalModel.findByIdAndUpdate, h, hpv]
  · cases h : isValidObjectId id <;>
      simp [deleteAnimalsId, animalModel.findByIdAndDelete, h]
  · rcases hc : validateCreate b with e | a <;>
      simp [postAnimals, animalModel.create, hc]

/-- C8: every route handler is total on its inputs — every driver error is
caught at the handler boundary — and every response it produces carries a
JSON body: an `{error: message}` body on every non-2xx status, a
record/array body on success, and the empty body only with the Delete 204. -/
theorem all_request_errors_handled (st : Store) (dbFault : Option String)
    (fresh : ObjectId) (id : String) (b : Payload) :
    errorsAreHandled (postAnimals st dbFault fresh b).1 = true ∧
    errorsAreHandled (getAnimals st dbFault) = true ∧
    errorsAreHandled (getAnimalsId st dbFault id) = true ∧
    errorsAreHandled (putAnimalsId st dbFault id b).1 = true ∧
    errorsAreHandled (deleteAnimalsId st dbFault id).1 = true := by
  refine ⟨?_, ?_, ?_, ?_, ?_⟩
  · unfold postAnimals
    split <;> simp [errorsAreHandled]
  · unfold getAnimals
    split <;> simp [errorsAreHandled]
  · unfold getAnimalsId
    split <;> simp [errorsAreHandled]
  · unfold putAnimalsId
    split <;> simp [errorsAreHandled]
  · unfold deleteAnimalsId
    split <;> simp [errorsAreHandled]

/-- C9: on Get-by-id and Delete every thrown error — malformed identifier
or store failure alike — produces the one fixed response
`400 {error: "Invalid ID format"}`, so the client cannot tell the two
apart; Update's 400 instead carries the underlying error's own message
(here the connection failure's message, or the ObjectId cast message). -/
theorem get_delete_opaque_400_update_transparent (st st2 : Store)
    (badId goodId msg : String) (b : Payload)
    (hbad : isValidObjectId badId = false)
    (hgood : isValidObjectId goodId = true)
    (hb : isOkE (validatePatch b) = true) :
    getAnimalsId st none badId = ⟨400, .errorBody "Invalid ID format"⟩ ∧
    getAnimalsId st2 (some msg) goodId = ⟨400, .errorBody "Invalid ID format"⟩ ∧
    (deleteAnimalsId st none badId).1 = ⟨400, .errorBody "Invalid ID format"⟩ ∧
    (deleteAnimalsId st2 (some msg) goodId).1 = ⟨400, .errorBody "Invalid ID format"⟩ ∧
    (putAnimalsId st2 (some msg) goodId b).1 = ⟨400, .errorBody msg⟩ ∧
    (putAnimalsId st none badId b).1 =
      ⟨400, .errorBody ("Cast to ObjectId failed for value " ++ badId)⟩ := by
  rcases hpv : validatePatch b with e | patch
  · rw [hpv] at hb
    simp [isOkE] at hb
  · refine ⟨?_, ?_, ?_, ?_, ?_, ?_⟩
    · simp [getAnimalsId, animalModel.findById, hbad]
    · simp [getAnimalsId, animalModel.findById, hgood]
    · simp [deleteAnimalsId, animalModel.findByIdAndDelete, hbad]
    · simp [deleteAnimalsId, animalModel.findByIdAndDelete, hgood]
    · simp [putAnimalsId, animalModel.findByIdAndUpdate, hgood, hpv, MongooseError.message]
    · simp [putAnimalsId, animalModel.findByIdAndUpdate, hbad, MongooseError.message]

/-- Witness for C9: `"not-an-id"` against the empty store, `oid` with a
failing store, and the empty update body. -/
theorem get_delete_opaque_400_update_transparent_witness :
    isValidObjectId "not-an-id" = false ∧ isValidObjectId oid = true ∧
    isOkE (validatePatch emptyPayload) = true ∧
    (getAnimalsId [] none "not-an-id" = ⟨400, .errorBody "Invalid ID format"⟩ ∧
     getAnimalsId st0 (some "connection lost") oid = ⟨400, .errorBody "Invalid ID format"⟩ ∧
     (deleteAnimalsId [] none "not-an-id").1 = ⟨400, .errorBody "Invalid ID format"⟩ ∧
     (deleteAnimalsId st0 (some "connection lost") oid).1 = ⟨400, .errorBody "Invalid ID format"⟩ ∧
     (putAnimalsId st0 (some "connection lost") oid emptyPayload).1 =
       ⟨400, .errorBody "connection lost"⟩ ∧
     (putAnimalsId [] none "not-an-id" emptyPayload).1 =
       ⟨400, .errorBody ("Cast to ObjectId failed for value " ++ "not-an-id")⟩) :=
  ⟨by decide, by decide, by decide,
   get_delete_opaque_400_update_transparent [] st0 "not-an-id" oid "connection lost"
     emptyPayload (by decide) (by decide) (by decide)⟩

/-- C10: updating an existing record with a body that omits some or all of
the required fields (the empty body included) answers 200; every omitted
field keeps its previous value and no validation error is raised for it —
only the fields present in the body are changed and validated. -/
theorem put_omitted_fields_preserved (st : Store) (id : ObjectId) (old : Animal)
    (p : Payload) (patch : AnimalPatch) (hv : isValidObjectId id = true)
    (hl : storeLookup st id = some old) (hp : validatePatch p = .ok patch) :
    (putAnimalsId st none id p).1 = ⟨200, .recordBody ⟨id, applyPatch patch old⟩⟩ ∧
    (p.name = none → (applyPatch patch old).name = old.name) ∧
    (p.species = none → (applyPatch patch old).species = old.species) ∧
    (p.age = none → (applyPatch patch old).age = old.age) := by
  refine ⟨?_, ?_, ?_, ?_⟩
  · simp [putAnimalsId, animalModel.findByIdAndUpdate, hv, hp, hl]
  · intro hn
    simp [applyPatch, validatePatch_name_none hp hn]
  · intro hn
    simp [applyPatch, validatePatch_species_none hp hn]
  · intro hn
    simp [applyPatch, validatePatch_age_none hp hn]

/-- Witness for C10: the empty body `{}` against the stored `lion`. -/
theorem put_omitted_fields_preserved_witness :
    isValidObjectId oid = true ∧ storeLookup st0 oid = some lion ∧
    validatePatch emptyPayload = .ok ⟨none, none, none⟩ ∧
    ((putAnimalsId st0 none oid emptyPayload).1 =
       ⟨200, .recordBody ⟨oid, applyPatch ⟨none, none, none⟩ lion⟩⟩ ∧
     (emptyPayload.name = none → (applyPatch ⟨none, none, none⟩ lion).name = lion.name) ∧
     (emptyPayload.species = none → (applyPatch ⟨none, none, none⟩ lion).species = lion.species) ∧
     (emptyPayload.age = none → (applyPatch ⟨none, none, none⟩ lion).age = lion.age)) :=
  ⟨by decide, by decide, rfl,
   put_omitted_fields_preserved st0 oid lion emptyPayload ⟨none, none, none⟩
     (by decide) (by decide) rfl⟩
